import Mathlib

/-!
Verification of the FITHUB fitness-platform backend (`app.py`).

The SQLite-backed data-access functions of the source are shallowly embedded:
each table is a list of rows, auto-increment ids are explicit counters, and
`datetime.now()` is an explicit `Nat` parameter (time measured in days).
The SHA-256 digest and the random salt/token generators (`secrets`) are
external primitives and are passed in as parameters.
-/

namespace FitHub

/-- Row of the `users` table (`app.py`, `init_db`). -/
structure UserRow where
  id : Nat
  name : String
  email : String
  mobile : String
  password_hash : String
  salt : String
  account_type : String
  auth_token : Option String
  token_expiry : Option Nat
  deriving Repr, DecidableEq

/-- Row of the `trainers` table. -/
structure TrainerRow where
  id : Nat
  user_id : Nat
  specialization : Option String
  experience_years : Option Nat
  bio : Option String
  deriving Repr, DecidableEq

/-- Row of the `fitness_plans` table. -/
structure PlanRow where
  id : Nat
  trainer_id : Nat
  title : String
  description : String
  price : Int
  duration_days : Nat
  difficulty : String
  category : String
  is_active : Nat
  created_at : Nat
  deriving Repr, DecidableEq

/-- Row of the `subscriptions` table (UNIQUE(user_id, plan_id) in the schema). -/
structure SubRow where
  id : Nat
  user_id : Nat
  plan_id : Nat
  start_date : Nat
  end_date : Nat
  payment_status : String
  amount_paid : Int
  created_at : Nat
  deriving Repr, DecidableEq

/-- Row of the `followers` table (UNIQUE(user_id, trainer_id) in the schema). -/
structure FollowRow where
  id : Nat
  user_id : Nat
  trainer_id : Nat
  deriving Repr, DecidableEq

/-- Row of the `messages` table; `is_read` is the 0/1 INTEGER column. -/
structure MsgRow where
  id : Nat
  sender_id : Nat
  receiver_id : Nat
  message : String
  is_read : Nat
  created_at : Nat
  deriving Repr, DecidableEq

/-- The whole SQLite database `fitness.db`, one list per table, plus the
AUTOINCREMENT counter of each table.  The `workouts` and `goals` tables carry
no invariants relevant here and are omitted. -/
structure DB where
  users : List UserRow
  trainers : List TrainerRow
  fitness_plans : List PlanRow
  subscriptions : List SubRow
  followers : List FollowRow
  messages : List MsgRow
  next_user_id : Nat
  next_trainer_id : Nat
  next_plan_id : Nat
  next_sub_id : Nat
  next_follow_id : Nat
  next_msg_id : Nat
  deriving Repr, DecidableEq

/-- The freshly initialised database (`init_db` creates empty tables;
SQLite AUTOINCREMENT starts at 1). -/
def emptyDB : DB :=
  { users := [], trainers := [], fitness_plans := [], subscriptions := []
    followers := [], messages := []
    next_user_id := 1, next_trainer_id := 1, next_plan_id := 1
    next_sub_id := 1, next_follow_id := 1, next_msg_id := 1 }

/-- `hash_password(password, salt)`: SHA-256 of `password + salt`.  The digest
itself is the external primitive `H`. -/
def hash_password (H : String → String) (password salt : String) : String :=
  H (password ++ salt)

/-- `verify_user`/`verify_token` public view `{id, name, email, account_type}`. -/
structure SessionView where
  id : Nat
  name : String
  email : String
  account_type : String
  deriving Repr, DecidableEq

/-- The dict returned by `verify_user`, which additionally carries the token. -/
structure LoginView where
  id : Nat
  name : String
  email : String
  account_type : String
  token : String
  deriving Repr, DecidableEq

/-- `create_user(name, email, mobile, password, account_type)`.  The random
salt and auth token (`secrets`) and the current time are parameters.  The
INSERT hits the `users.email UNIQUE` constraint (sqlite3.IntegrityError) iff
the email is already present; on success the token expiry is `now + 7` days,
and for a trainer account a `trainers` row is inserted as well.  Returns
`(success, message, token)` and the new database. -/
def create_user (H : String → String) (name email mobile password account_type : String)
    (salt auth_token : String) (now : Nat) (db : DB) :
    (Bool × String × Option String) × DB :=
  if db.users.any (fun u => u.email == email) then
    ((false, "Email already exists!", none), db)
  else
    let password_hash := hash_password H password salt
    let token_expiry := now + 7
    let uid := db.next_user_id
    let newUser : UserRow :=
      { id := uid, name := name, email := email, mobile := mobile
        password_hash := password_hash, salt := salt, account_type := account_type
        auth_token := some auth_token, token_expiry := some token_expiry }
    let db1 := { db with users := db.users ++ [newUser], next_user_id := uid + 1 }
    let db2 :=
      if account_type == "trainer" then
        { db1 with
            trainers := db1.trainers ++
              [{ id := db1.next_trainer_id, user_id := uid
                 specialization := none, experience_years := none, bio := none }]
            next_trainer_id := db1.next_trainer_id + 1 }
      else db1
    ((true, "Account created successfully!", some auth_token), db2)

/-- `verify_user(email, password)`: looks up the first row with this email
(`fetchone`), recomputes the hash with the stored salt, and on a match writes
a new token and a fresh `now + 7` expiry to every row with the found user's
id, returning the session dict with the new token.  On any failure the
database is returned unchanged with no result. -/
def verify_user (H : String → String) (email password new_token : String) (now : Nat)
    (db : DB) : Option LoginView × DB :=
  match db.users.find? (fun u => u.email == email) with
  | some u =>
    if hash_password H password u.salt == u.password_hash then
      (some { id := u.id, name := u.name, email := u.email
              account_type := u.account_type, token := new_token },
       { db with users := db.users.map (fun v =>
          if v.id == u.id then
            { v with auth_token := some new_token, token_expiry := some (now + 7) }
          else v) })
    else (none, db)
  | none => (none, db)

/-- The WHERE clause of `verify_token`: `auth_token = ? AND token_expiry > ?`.
A NULL `token_expiry` compares as false, as in SQL. -/
def token_valid (token : String) (now : Nat) (u : UserRow) : Bool :=
  u.auth_token == some token &&
    (match u.token_expiry with
     | some e => decide (now < e)
     | none => false)

/-- `verify_token(token)`: first row whose token matches and is unexpired. -/
def verify_token (token : String) (now : Nat) (db : DB) : Option SessionView :=
  match db.users.find? (token_valid token now) with
  | some u => some { id := u.id, name := u.name, email := u.email
                     account_type := u.account_type }
  | none => none

/-- `subscribe_to_plan(user_id, plan_id, amount)`: first checks for an
existing `(user_id, plan_id)` row with no date filter, then looks the plan up;
on success inserts a row with `start_date = today` and
`end_date = today + duration_days`. -/
def subscribe_to_plan (user_id plan_id : Nat) (amount : Int) (today : Nat) (db : DB) :
    (Bool × String) × DB :=
  if db.subscriptions.any (fun s => s.user_id == user_id && s.plan_id == plan_id) then
    ((false, "Already subscribed to this plan"), db)
  else
    match db.fitness_plans.find? (fun p => p.id == plan_id) with
    | none => ((false, "Plan not found"), db)
    | some plan =>
      ((true, "Subscription successful!"),
       { db with
          subscriptions := db.subscriptions ++
            [{ id := db.next_sub_id, user_id := user_id, plan_id := plan_id
               start_date := today, end_date := today + plan.duration_days
               payment_status := "completed", amount_paid := amount, created_at := today }]
          next_sub_id := db.next_sub_id + 1 })

/-- `is_subscribed(user_id, plan_id)`: a `(user_id, plan_id)` row with
`end_date >= today` exists. -/
def is_subscribed (user_id plan_id : Nat) (today : Nat) (db : DB) : Bool :=
  db.subscriptions.any (fun s =>
    s.user_id == user_id && s.plan_id == plan_id && decide (today ≤ s.end_date))

/-- `follow_trainer(user_id, trainer_id)`: INSERT hitting the
`followers (user_id, trainer_id) UNIQUE` constraint iff the edge exists. -/
def follow_trainer (user_id trainer_id : Nat) (db : DB) : (Bool × String) × DB :=
  if db.followers.any (fun f => f.user_id == user_id && f.trainer_id == trainer_id) then
    ((false, "Already following this trainer"), db)
  else
    ((true, "Now following trainer!"),
     { db with
        followers := db.followers ++
          [{ id := db.next_follow_id, user_id := user_id, trainer_id := trainer_id }]
        next_follow_id := db.next_follow_id + 1 })

/-- `unfollow_trainer(user_id, trainer_id)`: DELETE of all matching rows;
returns `rowcount > 0`. -/
def unfollow_trainer (user_id trainer_id : Nat) (db : DB) : Bool × DB :=
  (decide (0 < db.followers.countP
      (fun f => f.user_id == user_id && f.trainer_id == trainer_id)),
   { db with followers := db.followers.filter fun f =>
      !(f.user_id == user_id && f.trainer_id == trainer_id) })

/-- `is_following(user_id, trainer_id)`. -/
def is_following (user_id trainer_id : Nat) (db : DB) : Bool :=
  db.followers.any (fun f => f.user_id == user_id && f.trainer_id == trainer_id)

/-- `get_trainer_followers_count(trainer_id)`: `COUNT(*)` over the edges. -/
def get_trainer_followers_count (trainer_id : Nat) (db : DB) : Nat :=
  db.followers.countP (fun f => f.trainer_id == trainer_id)

/-- One row of the `get_personalized_feed` result; `is_purchased` is the
`CASE WHEN s.id IS NOT NULL THEN 1 ELSE 0 END` column. -/
structure FeedRow where
  id : Nat
  title : String
  description : String
  price : Int
  duration_days : Nat
  difficulty : String
  category : String
  trainer_id : Nat
  trainer_name : String
  created_at : Nat
  is_purchased : Nat
  deriving Repr, DecidableEq

/-- `get_personalized_feed(user_id)`: active plans joined with their trainer
row (`users.id` is the primary key, so at most one row matches) and restricted
to trainers the user follows (at most one edge by the UNIQUE constraint); the
LEFT JOIN on `subscriptions (user_id, plan_id)` matches at most one row and
only feeds the `is_purchased` CASE, with no date condition.  Ordered by plan
creation time descending. -/
def get_personalized_feed (user_id : Nat) (db : DB) : List FeedRow :=
  (db.fitness_plans.filterMap (fun fp =>
    if fp.is_active == 1 then
      match db.users.find? (fun u => u.id == fp.trainer_id) with
      | some u =>
        if db.followers.any (fun f => f.trainer_id == u.id && f.user_id == user_id) then
          some { id := fp.id, title := fp.title, description := fp.description
                 price := fp.price, duration_days := fp.duration_days
                 difficulty := fp.difficulty, category := fp.category
                 trainer_id := u.id, trainer_name := u.name, created_at := fp.created_at
                 is_purchased :=
                   if db.subscriptions.any
                        (fun s => s.plan_id == fp.id && s.user_id == user_id) then 1
                   else 0 }
        else none
      | none => none
    else none)).insertionSort (fun a b => b.created_at ≤ a.created_at)

/-- `send_message(sender_id, receiver_id, message)`: plain insert, `is_read`
defaults to 0. -/
def send_message (sender_id receiver_id : Nat) (message : String) (now : Nat) (db : DB) :
    Bool × DB :=
  (true,
   { db with
      messages := db.messages ++
        [{ id := db.next_msg_id, sender_id := sender_id, receiver_id := receiver_id
           message := message, is_read := 0, created_at := now }]
      next_msg_id := db.next_msg_id + 1 })

/-- One row of the `get_conversation` result. -/
structure ConvRow where
  id : Nat
  sender_id : Nat
  receiver_id : Nat
  message : String
  created_at : Nat
  sender_name : String
  deriving Repr, DecidableEq

/-- `get_conversation(user1_id, user2_id)`: messages in either direction
between the two users, joined with the sender's user row for the name,
ordered by creation time ascending. -/
def get_conversation (user1_id user2_id : Nat) (db : DB) : List ConvRow :=
  (db.messages.filterMap (fun m =>
    if (m.sender_id == user1_id && m.receiver_id == user2_id) ||
       (m.sender_id == user2_id && m.receiver_id == user1_id) then
      match db.users.find? (fun u => u.id == m.sender_id) with
      | some u =>
        some { id := m.id, sender_id := m.sender_id, receiver_id := m.receiver_id
               message := m.message, created_at := m.created_at, sender_name := u.name }
      | none => none
    else none)).insertionSort (fun a b => a.created_at ≤ b.created_at)

/-- `get_unread_count(user_id)`: `COUNT(*)` of messages to this user with
`is_read = 0`. -/
def get_unread_count (user_id : Nat) (db : DB) : Nat :=
  db.messages.countP (fun m => m.receiver_id == user_id && m.is_read == 0)

/-- The per-row effect of `mark_messages_read`'s UPDATE. -/
def mark_fn (user_id sender_id : Nat) (m : MsgRow) : MsgRow :=
  if m.receiver_id == user_id && m.sender_id == sender_id then { m with is_read := 1 }
  else m

/-- `mark_messages_read(user_id, sender_id)`: sets `is_read = 1` on every
message from `sender_id` to `user_id`. -/
def mark_messages_read (user_id sender_id : Nat) (db : DB) : DB :=
  { db with messages := db.messages.map (mark_fn user_id sender_id) }

/-- `create_fitness_plan(trainer_id, ...)`: plain insert, `is_active`
defaults to 1. -/
def create_fitness_plan (trainer_id : Nat) (title description : String) (price : Int)
    (duration_days : Nat) (difficulty category : String) (now : Nat) (db : DB) :
    Bool × DB :=
  (true,
   { db with
      fitness_plans := db.fitness_plans ++
        [{ id := db.next_plan_id, trainer_id := trainer_id, title := title
           description := description, price := price, duration_days := duration_days
           difficulty := difficulty, category := category, is_active := 1
           created_at := now }]
      next_plan_id := db.next_plan_id + 1 })

/-- `delete_fitness_plan(plan_id, trainer_id)`: DELETE restricted to the
owning trainer; returns `rowcount > 0`. -/
def delete_fitness_plan (plan_id trainer_id : Nat) (db : DB) : Bool × DB :=
  (decide (0 < db.fitness_plans.countP
      (fun p => p.id == plan_id && p.trainer_id == trainer_id)),
   { db with fitness_plans := db.fitness_plans.filter fun p =>
      !(p.id == plan_id && p.trainer_id == trainer_id) })

/-- `update_trainer_profile(user_id, ...)`: UPDATE of the trainer's row. -/
def update_trainer_profile (user_id : Nat) (specialization : String) (experience : Nat)
    (bio : String) (db : DB) : DB :=
  { db with trainers := db.trainers.map (fun t =>
      if t.user_id == user_id then
        { t with specialization := some specialization
                 experience_years := some experience, bio := some bio }
      else t) }

/-- Database states reachable from the fresh database through the modelled
write operations of the source. -/
inductive Reachable : DB → Prop where
  | init : Reachable emptyDB
  | create_user (H : String → String) (n e m pw acct s tk : String) (now : Nat) {db : DB} :
      Reachable db → Reachable (create_user H n e m pw acct s tk now db).2
  | verify_user (H : String → String) (e pw tk : String) (now : Nat) {db : DB} :
      Reachable db → Reachable (verify_user H e pw tk now db).2
  | subscribe (u p : Nat) (a : Int) (t : Nat) {db : DB} :
      Reachable db → Reachable (subscribe_to_plan u p a t db).2
  | follow (u t : Nat) {db : DB} :
      Reachable db → Reachable (follow_trainer u t db).2
  | unfollow (u t : Nat) {db : DB} :
      Reachable db → Reachable (unfollow_trainer u t db).2
  | send (s r : Nat) (msg : String) (now : Nat) {db : DB} :
      Reachable db → Reachable (send_message s r msg now db).2
  | mark (u s : Nat) {db : DB} :
      Reachable db → Reachable (mark_messages_read u s db)
  | create_plan (tr : Nat) (ti de : String) (pr : Int) (du : Nat) (di ca : String)
      (now : Nat) {db : DB} :
      Reachable db → Reachable (create_fitness_plan tr ti de pr du di ca now db).2
  | delete_plan (p tr : Nat) {db : DB} :
      Reachable db → Reachable (delete_fitness_plan p tr db).2
  | update_profile (u : Nat) (sp : String) (ex : Nat) (bio : String) {db : DB} :
      Reachable db → Reachable (update_trainer_profile u sp ex bio db)

/-- Every trainer-typed user row has a matching `trainers` row. -/
def trainer_inv (db : DB) : Prop :=
  ∀ u ∈ db.users, u.account_type = "trainer" → ∃ t ∈ db.trainers, t.user_id = u.id

/-! Concrete fixture states, built through the operations themselves, used by
the counterexamples and witnesses below.  `idH` is a sample digest. -/

/-- Sample digest used in concrete states. -/
def idH : String → String := fun s => s

/-- Alice (a plain user, id 1) signed up at day 0. -/
def db1 : DB := (create_user idH "Alice" "a@x.com" "1" "pw" "user" "s1" "t1" 0 emptyDB).2

/-- Bob (a trainer, id 2) signed up at day 0. -/
def db2 : DB := (create_user idH "Bob" "b@x.com" "1" "pw" "trainer" "s2" "t2" 0 db1).2

/-- Bob created plan P1 (id 1, duration 3 days) at day 0. -/
def db3 : DB := (create_fitness_plan 2 "P1" "d" 10 3 "Beginner" "General" 0 db2).2

/-- Alice follows Bob. -/
def db4 : DB := (follow_trainer 1 2 db3).2

/-- Alice subscribed to plan 1 at day 0 (so `end_date = 3`). -/
def db5 : DB := (subscribe_to_plan 1 1 10 0 db4).2

/-- The plan row of P1 as stored in `db4`. -/
def planP1 : PlanRow :=
  { id := 1, trainer_id := 2, title := "P1", description := "d", price := 10
    duration_days := 3, difficulty := "Beginner", category := "General"
    is_active := 1, created_at := 0 }

/-- Bob's user row as stored in `db2`. -/
def bobRow : UserRow :=
  { id := 2, name := "Bob", email := "b@x.com", mobile := "1"
    password_hash := "pws2", salt := "s2", account_type := "trainer"
    auth_token := some "t2", token_expiry := some 7 }

/-- The single feed row of `get_personalized_feed 1 db5`. -/
def feedRow5 : FeedRow :=
  { id := 1, title := "P1", description := "d", price := 10, duration_days := 3
    difficulty := "Beginner", category := "General", trainer_id := 2
    trainer_name := "Bob", created_at := 0, is_purchased := 1 }

/-- A state with one message from Bob (2) to Alice (1). -/
def msgDB : DB := (send_message 2 1 "hi" 0 db2).2

/-! Helper lemmas shared between the claim theorems. -/

/-- A subscribe call with no prior `(user, plan)` row and an existing plan
inserts the new subscription row and reports success. -/
theorem subscribe_success (u p : Nat) (a : Int) (t0 : Nat) (db : DB) (plan : PlanRow)
    (h1 : db.subscriptions.any (fun s => s.user_id == u && s.plan_id == p) = false)
    (h2 : db.fitness_plans.find? (fun q => q.id == p) = some plan) :
    subscribe_to_plan u p a t0 db =
      ((true, "Subscription successful!"),
       { db with
          subscriptions := db.subscriptions ++
            [{ id := db.next_sub_id, user_id := u, plan_id := p, start_date := t0
               end_date := t0 + plan.duration_days, payment_status := "completed"
               amount_paid := a, created_at := t0 }]
          next_sub_id := db.next_sub_id + 1 }) := by
  unfold subscribe_to_plan
  rw [h1, h2]
  rfl

/-- A subscribe call with any prior `(user, plan)` row is rejected before the
plan is even looked up, leaving the state unchanged. -/
theorem subscribe_already (u p : Nat) (a : Int) (t0 : Nat) (db : DB)
    (h : ∃ s ∈ db.subscriptions, s.user_id = u ∧ s.plan_id = p) :
    subscribe_to_plan u p a t0 db = ((false, "Already subscribed to this plan"), db) := by
  obtain ⟨s, hs, h1, h2⟩ := h
  have hany : db.subscriptions.any (fun s => s.user_id == u && s.plan_id == p) = true :=
    List.any_eq_true.mpr ⟨s, hs, by simp [h1, h2]⟩
  unfold subscribe_to_plan
  rw [hany]
  rfl

/-- Claim C1, counterexample: in the reachable state `db5` Alice's
subscription to plan 1 has `end_date = 3`, so on day 5 `isActive` is false,
yet the personalized feed still annotates the plan with `isPurchased = 1`:
the feed's LEFT JOIN carries no date condition, so the annotation does not
match `isActive` at query time. -/
theorem claim_C1_counterexample :
    ((get_personalized_feed 1 db5).map fun r => (r.id, r.is_purchased)) = [(1, 1)] ∧
    is_subscribed 1 1 5 db5 = false := by decide

/-- Claim C1 (amended): in every personalized-feed result, a row's
`isPurchased` annotation is 1 exactly when some subscription row of the user
for that plan exists, regardless of its `end_date` — expired subscriptions
are still reported as purchased. -/
theorem claim_C1 (u : Nat) (db : DB) (row : FeedRow)
    (h : row ∈ get_personalized_feed u db) :
    row.is_purchased = 1 ↔ ∃ s ∈ db.subscriptions, s.user_id = u ∧ s.plan_id = row.id := by
  unfold get_personalized_feed at h
  rw [List.mem_insertionSort, List.mem_filterMap] at h
  obtain ⟨fp, hfp, hrow⟩ := h
  split at hrow
  · split at hrow
    · split at hrow
      · obtain rfl : _ = row := Option.some.inj hrow
        by_cases hsub : db.subscriptions.any
            (fun s => s.plan_id == fp.id && s.user_id == u) = true
        · simp only [hsub, if_pos]
          constructor
          · intro _
            obtain ⟨s, hs, hp⟩ := List.any_eq_true.mp hsub
            simp only [Bool.and_eq_true, beq_iff_eq] at hp
            exact ⟨s, hs, hp.2, hp.1⟩
          · intro _; trivial
        · rw [Bool.not_eq_true] at hsub
          simp only [hsub]
          constructor
          · intro h01; exact absurd h01 (by simp)
          · rintro ⟨s, hs, h1, h2⟩
            have : db.subscriptions.any
                (fun s => s.plan_id == fp.id && s.user_id == u) = true :=
              List.any_eq_true.mpr ⟨s, hs, by simp [h1, h2]⟩
            rw [this] at hsub
            exact absurd hsub (by simp)
      · exact absurd hrow (by simp)
    · exact absurd hrow (by simp)
  · exact absurd hrow (by simp)

/-- Claim C1, witness for the amended statement at the concrete state `db5`. -/
theorem claim_C1_witness :
    feedRow5 ∈ get_personalized_feed 1 db5 ∧
    (feedRow5.is_purchased = 1 ↔
      ∃ s ∈ db5.subscriptions, s.user_id = 1 ∧ s.plan_id = feedRow5.id) :=
  ⟨by decide, claim_C1 1 db5 feedRow5 (by decide)⟩

/-- Claim C2, counterexample: Alice subscribes to the 3-day plan at day 0
(`end_date = 3`).  The claim says the subscription is inactive as soon as
`today > start_date + duration_days - 1`, i.e. already on day 3, but
`is_subscribed` (which tests `end_date >= today`) is still true on day 3. -/
theorem claim_C2_counterexample :
    (subscribe_to_plan 1 1 10 0 db4).1.1 = true ∧
    (3 : Nat) > 0 + 3 - 1 ∧
    is_subscribed 1 1 3 db5 = true := by decide

/-- Claim C2 (amended): after a successful subscribe at day `t0` to a plan of
duration `d`, `isActive` is true immediately, and it is true exactly while
`today ≤ t0 + d` — it becomes false exactly when `today > start_date +
duration_days` (one day later than the claim's cutoff). -/
theorem claim_C2 (u p : Nat) (a : Int) (t0 : Nat) (db : DB) (plan : PlanRow)
    (h1 : db.subscriptions.any (fun s => s.user_id == u && s.plan_id == p) = false)
    (h2 : db.fitness_plans.find? (fun q => q.id == p) = some plan) :
    (subscribe_to_plan u p a t0 db).1.1 = true ∧
    is_subscribed u p t0 (subscribe_to_plan u p a t0 db).2 = true ∧
    ∀ today, (is_subscribed u p today (subscribe_to_plan u p a t0 db).2 = true ↔
      today ≤ t0 + plan.duration_days) := by
  have key : ∀ today, is_subscribed u p today (subscribe_to_plan u p a t0 db).2 =
      decide (today ≤ t0 + plan.duration_days) := by
    intro today
    rw [subscribe_success u p a t0 db plan h1 h2]
    unfold is_subscribed
    rw [List.any_append]
    have hold : db.subscriptions.any (fun s =>
        s.user_id == u && (s.plan_id == p && decide (today ≤ s.end_date))) = false := by
      rw [List.any_eq_false]
      intro s hs
      have hns := List.any_eq_false.mp h1 s hs
      simp only [Bool.and_eq_true, not_and] at hns ⊢
      intro ha hb
      exact absurd hb (hns ha)
    rw [show (fun s : SubRow =>
        s.user_id == u && s.plan_id == p && decide (today ≤ s.end_date)) =
        (fun s : SubRow =>
        s.user_id == u && (s.plan_id == p && decide (today ≤ s.end_date))) from
      funext fun s => Bool.and_assoc .. , hold]
    simp
  refine ⟨?_, ?_, fun today => ?_⟩
  · rw [subscribe_success u p a t0 db plan h1 h2]
  · rw [key t0]
    simp
  · rw [key today]
    simp

/-- Claim C2, witness for the amended statement: in `db5` the subscription made
at day 0 to the 3-day plan is still active on day 3. -/
theorem claim_C2_witness :
    is_subscribed 1 1 3 (subscribe_to_plan 1 1 10 0 db4).2 = true :=
  ((claim_C2 1 1 10 0 db4 planP1 (by decide) (by decide)).2.2 3).mpr (by decide)

/-- Claim C3: when a login succeeds for the user row `u` (first row with this
email, matching hash), the call returns the session dict with the new token,
and in the resulting state the user's previous token no longer verifies while
the new token (expiring at `now + 7`) does.  `old_token` must be held only by
rows with `u`'s id (tokens are high-entropy random values) and the rotated
token is fresh. -/
theorem claim_C3 (H : String → String) (email password new_token old_token : String)
    (now t : Nat) (db : DB) (u : UserRow)
    (hfind : db.users.find? (fun v => v.email == email) = some u)
    (hpw : hash_password H password u.salt = u.password_hash)
    (_hold : u.auth_token = some old_token)
    (hne : old_token ≠ new_token)
    (huniq : ∀ v ∈ db.users, v.auth_token = some old_token → v.id = u.id) :
    (verify_user H email password new_token now db).1 =
      some { id := u.id, name := u.name, email := u.email
             account_type := u.account_type, token := new_token } ∧
    verify_token old_token t (verify_user H email password new_token now db).2 = none ∧
    (t < now + 7 →
      (verify_token new_token t (verify_user H email password new_token now db).2).isSome
        = true) := by
  have hbeq : (hash_password H password u.salt == u.password_hash) = true :=
    beq_iff_eq.mpr hpw
  have hstep : verify_user H email password new_token now db =
      (some { id := u.id, name := u.name, email := u.email
              account_type := u.account_type, token := new_token },
       { db with users := db.users.map (fun v =>
          if v.id == u.id then
            { v with auth_token := some new_token, token_expiry := some (now + 7) }
          else v) }) := by
    unfold verify_user
    rw [hfind]
    dsimp only
    rw [if_pos hbeq]
  have hnone : List.find? (token_valid old_token t)
      (db.users.map (fun v =>
        if v.id == u.id then
          { v with auth_token := some new_token, token_expiry := some (now + 7) }
        else v)) = none := by
    rw [List.find?_eq_none]
    intro x hx
    obtain ⟨v, hv, rfl⟩ := List.mem_map.mp hx
    by_cases hid : (v.id == u.id) = true
    · rw [if_pos hid]
      simp only [token_valid, Bool.and_eq_true, beq_iff_eq, not_and]
      intro habs
      exact absurd (Option.some.inj habs).symm hne
    · rw [if_neg hid]
      simp only [token_valid, Bool.and_eq_true, beq_iff_eq, not_and]
      intro habs
      exact absurd (beq_iff_eq.mpr (huniq v hv habs)) hid
  have hsome : t < now + 7 → (List.find? (token_valid new_token t)
      (db.users.map (fun v =>
        if v.id == u.id then
          { v with auth_token := some new_token, token_expiry := some (now + 7) }
        else v))).isSome = true := by
    intro ht
    rw [List.find?_isSome]
    refine ⟨_, List.mem_map_of_mem _ (List.mem_of_find?_eq_some hfind), ?_⟩
    rw [if_pos (beq_iff_eq.mpr (rfl : u.id = u.id))]
    simp [token_valid, ht]
  refine ⟨by rw [hstep], ?_, fun ht => ?_⟩
  · rw [hstep]
    unfold verify_token
    rw [hnone]
  · rw [hstep]
    unfold verify_token
    obtain ⟨w, hw⟩ := Option.isSome_iff_exists.mp (hsome ht)
    rw [hw]
    rfl

/-- Claim C3, witness: Bob logs in again at day 2 in state `db2`; his signup
token `t2` stops verifying and the fresh token verifies at day 3. -/
theorem claim_C3_witness :
    (verify_user idH "b@x.com" "pw" "fresh" 2 db2).1 =
      some { id := 2, name := "Bob", email := "b@x.com"
             account_type := "trainer", token := "fresh" } ∧
    verify_token "t2" 3 (verify_user idH "b@x.com" "pw" "fresh" 2 db2).2 = none ∧
    (verify_token "fresh" 3 (verify_user idH "b@x.com" "pw" "fresh" 2 db2).2).isSome
      = true :=
  ⟨(claim_C3 idH "b@x.com" "pw" "fresh" "t2" 2 3 db2 bobRow (by decide) (by decide)
      (by decide) (by decide) (by decide)).1,
   (claim_C3 idH "b@x.com" "pw" "fresh" "t2" 2 3 db2 bobRow (by decide) (by decide)
      (by decide) (by decide) (by decide)).2.1,
   (claim_C3 idH "b@x.com" "pw" "fresh" "t2" 2 3 db2 bobRow (by decide) (by decide)
      (by decide) (by decide) (by decide)).2.2 (by decide)⟩

/-- Claim C10: when credential verification fails — no row has the email, or
the recomputed hash differs from the stored one — `verify_user` returns no
session and the state is returned exactly unchanged, so any token that
verified before the failed attempt still verifies after it. -/
theorem claim_C10 (H : String → String) (email password new_token : String) (now : Nat)
    (db : DB)
    (h : ∀ u ∈ db.users, u.email = email →
      ¬ hash_password H password u.salt = u.password_hash) :
    verify_user H email password new_token now db = (none, db) ∧
    ∀ tok t, verify_token tok t (verify_user H email password new_token now db).2 =
      verify_token tok t db := by
  have hmain : verify_user H email password new_token now db = (none, db) := by
    unfold verify_user
    cases hf : db.users.find? (fun v => v.email == email) with
    | none => rfl
    | some u =>
      have hmem := List.mem_of_find?_eq_some hf
      have hemail : u.email = email := by
        have hp := List.find?_some hf
        simpa using hp
      have hneg : ¬ (hash_password H password u.salt == u.password_hash) = true :=
        fun hb => h u hmem hemail (beq_iff_eq.mp hb)
      dsimp only
      rw [if_neg hneg]
  exact ⟨hmain, fun tok t => by rw [hmain]⟩

/-- Claim C10, witness: a wrong-password login for Bob in `db2` changes
nothing and his earlier token still verifies. -/
theorem claim_C10_witness :
    verify_user idH "b@x.com" "WRONG" "fresh" 2 db2 = (none, db2) ∧
    verify_token "t2" 3 (verify_user idH "b@x.com" "WRONG" "fresh" 2 db2).2 =
      verify_token "t2" 3 db2 :=
  ⟨(claim_C10 idH "b@x.com" "WRONG" "fresh" 2 db2 (by decide)).1,
   (claim_C10 idH "b@x.com" "WRONG" "fresh" 2 db2 (by decide)).2 "t2" 3⟩

/-- Claim C4: when no `(u, p)` subscription row exists and the plan exists,
subscribing succeeds and leaves a `(u, p)` row behind; and in any state that
contains a `(u, p)` row — no matter how old, and whether or not the plan
still exists, since the prior-subscription check runs before the plan
lookup — a further subscribe call returns the already-subscribed error and
changes nothing. -/
theorem claim_C4 (u p : Nat) (a : Int) (t0 : Nat) (db : DB) (plan : PlanRow)
    (h1 : db.subscriptions.any (fun s => s.user_id == u && s.plan_id == p) = false)
    (h2 : db.fitness_plans.find? (fun q => q.id == p) = some plan) :
    (subscribe_to_plan u p a t0 db).1 = (true, "Subscription successful!") ∧
    (∃ s ∈ (subscribe_to_plan u p a t0 db).2.subscriptions,
      s.user_id = u ∧ s.plan_id = p) ∧
    ∀ db2 a2 t2, (∃ s ∈ db2.subscriptions, s.user_id = u ∧ s.plan_id = p) →
      subscribe_to_plan u p a2 t2 db2 = ((false, "Already subscribed to this plan"), db2) := by
  refine ⟨by rw [subscribe_success u p a t0 db plan h1 h2], ?_, ?_⟩
  · rw [subscribe_success u p a t0 db plan h1 h2]
    exact ⟨_, List.mem_append_right _ (List.mem_singleton_self _), rfl, rfl⟩
  · intro db2 a2 t2 hex
    exact subscribe_already u p a2 t2 db2 hex

/-- Claim C4, witness: Alice's first subscribe in `db4` succeeds; after the
plan is deleted, a second subscribe still reports "Already subscribed". -/
theorem claim_C4_witness :
    (subscribe_to_plan 1 1 10 0 db4).1 = (true, "Subscription successful!") ∧
    subscribe_to_plan 1 1 20 9 (delete_fitness_plan 1 2 db5).2 =
      ((false, "Already subscribed to this plan"), (delete_fitness_plan 1 2 db5).2) :=
  ⟨(claim_C4 1 1 10 0 db4 planP1 (by decide) (by decide)).1,
   (claim_C4 1 1 10 0 db4 planP1 (by decide) (by decide)).2.2
     (delete_fitness_plan 1 2 db5).2 20 9 (by decide)⟩

/-- A signup on a state already holding the email hits the uniqueness
constraint and returns the duplicate-email error with the state unchanged. -/
theorem create_user_dup (H : String → String)
    (name email mobile password account_type salt token : String) (now : Nat) (db : DB)
    (h : db.users.any (fun v => v.email == email) = true) :
    create_user H name email mobile password account_type salt token now db =
      ((false, "Email already exists!", none), db) := by
  unfold create_user
  rw [h]
  rfl

/-- After a signup on a state without the email, the users table is the old
one with the new row appended (whatever the account type). -/
theorem create_user_users (H : String → String)
    (name email mobile password account_type salt token : String) (now : Nat) (db : DB)
    (hany : db.users.any (fun v => v.email == email) = false) :
    (create_user H name email mobile password account_type salt token now db).2.users =
      db.users ++
        [{ id := db.next_user_id, name := name, email := email, mobile := mobile
           password_hash := hash_password H password salt, salt := salt
           account_type := account_type, auth_token := some token
           token_expiry := some (now + 7) }] := by
  by_cases hacct : (account_type == "trainer") = true <;>
    simp [create_user, hany, hacct]

/-- Claim C5: a signup with a fresh email returns success with the issued
token; that token verifies before its 7-day expiry, resolving to the new
user's session view; and a second signup with the same email fails with the
duplicate-email error, leaving the state (in particular the existing user)
unchanged. -/
theorem claim_C5 (H : String → String)
    (name email mobile password account_type salt token : String) (now t : Nat) (db : DB)
    (hdup : ∀ v ∈ db.users, ¬ v.email = email)
    (hfresh : ∀ v ∈ db.users, ¬ v.auth_token = some token)
    (ht : t < now + 7) :
    (create_user H name email mobile password account_type salt token now db).1 =
      (true, "Account created successfully!", some token) ∧
    verify_token token t (create_user H name email mobile password account_type salt token now db).2 =
      some { id := db.next_user_id, name := name, email := email
             account_type := account_type } ∧
    ∀ n2 m2 pw2 acct2 s2 tk2 now2,
      create_user H n2 email m2 pw2 acct2 s2 tk2 now2
          (create_user H name email mobile password account_type salt token now db).2 =
        ((false, "Email already exists!", none),
         (create_user H name email mobile password account_type salt token now db).2) := by
  have hany : db.users.any (fun v => v.email == email) = false := by
    rw [List.any_eq_false]
    intro v hv
    simpa using hdup v hv
  have husers := create_user_users H name email mobile password account_type salt token
    now db hany
  refine ⟨?_, ?_, ?_⟩
  · unfold create_user
    rw [hany]
    rfl
  · unfold verify_token
    rw [husers, List.find?_append]
    have hmiss : List.find? (token_valid token t) db.users = none := by
      rw [List.find?_eq_none]
      intro v hv
      simp only [token_valid, Bool.and_eq_true, beq_iff_eq, not_and]
      intro habs
      exact absurd habs (hfresh v hv)
    rw [hmiss, List.find?_cons_of_pos]
    · rfl
    · simp [token_valid, ht]
  · intro n2 m2 pw2 acct2 s2 tk2 now2
    apply create_user_dup
    rw [husers, List.any_append]
    simp

/-- Claim C5, witness: Carol signs up in `db2`, her token verifies on day 3,
and Dan's signup with the same email fails leaving the state unchanged. -/
theorem claim_C5_witness :
    (create_user idH "Carol" "c@x.com" "1" "pw" "user" "s3" "t3" 0 db2).1 =
      (true, "Account created successfully!", some "t3") ∧
    verify_token "t3" 3 (create_user idH "Carol" "c@x.com" "1" "pw" "user" "s3" "t3" 0 db2).2 =
      some { id := 3, name := "Carol", email := "c@x.com", account_type := "user" } ∧
    create_user idH "Dan" "c@x.com" "2" "pw2" "user" "s4" "t4" 1
        (create_user idH "Carol" "c@x.com" "1" "pw" "user" "s3" "t3" 0 db2).2 =
      ((false, "Email already exists!", none),
       (create_user idH "Carol" "c@x.com" "1" "pw" "user" "s3" "t3" 0 db2).2) :=
  ⟨(claim_C5 idH "Carol" "c@x.com" "1" "pw" "user" "s3" "t3" 0 3 db2
      (by decide) (by decide) (by decide)).1,
   (claim_C5 idH "Carol" "c@x.com" "1" "pw" "user" "s3" "t3" 0 3 db2
      (by decide) (by decide) (by decide)).2.1,
   (claim_C5 idH "Carol" "c@x.com" "1" "pw" "user" "s3" "t3" 0 3 db2
      (by decide) (by decide) (by decide)).2.2 "Dan" "2" "pw2" "user" "s4" "t4" 1⟩

/-- A follow call on a state already holding the edge hits the uniqueness
constraint and reports the already-following error with the state unchanged. -/
theorem follow_already (u t : Nat) (db : DB)
    (h : db.followers.any (fun f => f.user_id == u && f.trainer_id == t) = true) :
    follow_trainer u t db = ((false, "Already following this trainer"), db) := by
  unfold follow_trainer
  rw [h]
  rfl

/-- Claim C7: follow then unfollow leaves `isFollowing` false; `unfollow`
returns true exactly when a matching edge existed (and was removed); and a
second `follow` without an intervening unfollow reports the
already-following error. -/
theorem claim_C7 (u t : Nat) (db : DB) :
    is_following u t (unfollow_trainer u t (follow_trainer u t db).2).2 = false ∧
    ((unfollow_trainer u t db).1 = true ↔
      ∃ f ∈ db.followers, f.user_id = u ∧ f.trainer_id = t) ∧
    (follow_trainer u t (follow_trainer u t db).2).1 =
      (false, "Already following this trainer") := by
  refine ⟨?_, ?_, ?_⟩
  · unfold is_following unfollow_trainer
    rw [List.any_eq_false]
    intro f hf
    rw [List.mem_filter, Bool.not_eq_true'] at hf
    simp [hf.2]
  · unfold unfollow_trainer
    simp only [decide_eq_true_eq, List.countP_pos_iff, Bool.and_eq_true, beq_iff_eq]
  · have hedge : (follow_trainer u t db).2.followers.any
        (fun f => f.user_id == u && f.trainer_id == t) = true := by
      unfold follow_trainer
      by_cases hc : db.followers.any (fun f => f.user_id == u && f.trainer_id == t) = true
      · rw [if_pos hc]
        exact hc
      · rw [if_neg hc]
        rw [List.any_append]
        simp
    rw [follow_already u t _ hedge]

/-- Claim C8: marking a conversation read twice is the same as marking it
once — the whole state, hence also `unreadCount`, agrees — and the operation
sets `is_read` to 1 exactly on the messages from `s` to `u`, leaving every
other message untouched. -/
theorem claim_C8 (u s : Nat) (db : DB) :
    mark_messages_read u s (mark_messages_read u s db) = mark_messages_read u s db ∧
    get_unread_count u (mark_messages_read u s (mark_messages_read u s db)) =
      get_unread_count u (mark_messages_read u s db) ∧
    ∀ i : Nat, ∀ m : MsgRow, db.messages[i]? = some m →
      (mark_messages_read u s db).messages[i]? =
        some (if m.receiver_id = u ∧ m.sender_id = s then { m with is_read := 1 } else m) := by
  have hff : ∀ m : MsgRow, mark_fn u s (mark_fn u s m) = mark_fn u s m := by
    intro m
    by_cases hc : (m.receiver_id == u && m.sender_id == s) = true
    · simp [mark_fn, hc]
    · simp [mark_fn, hc]
  have hidem : mark_messages_read u s (mark_messages_read u s db) =
      mark_messages_read u s db := by
    unfold mark_messages_read
    simp only [List.map_map]
    congr 1
    exact List.map_congr_left (fun m _ => hff m)
  refine ⟨hidem, by rw [hidem], ?_⟩
  intro i m hm
  unfold mark_messages_read
  rw [List.getElem?_map, hm]
  simp only [Option.map_some']
  congr 1
  unfold mark_fn
  by_cases hb : (m.receiver_id == u && m.sender_id == s) = true
  · have hc : m.receiver_id = u ∧ m.sender_id = s := by
      simpa [Bool.and_eq_true, beq_iff_eq] using hb
    rw [if_pos hb, if_pos hc]
  · have hc : ¬ (m.receiver_id = u ∧ m.sender_id = s) := by
      simpa [Bool.and_eq_true, beq_iff_eq] using hb
    rw [if_neg hb, if_neg hc]

/-- Claim C8, witness: marking Bob's message to Alice read in `msgDB` flips
its `is_read` flag to 1. -/
theorem claim_C8_witness :
    (mark_messages_read 1 2 msgDB).messages[0]? =
      some { id := 1, sender_id := 2, receiver_id := 1, message := "hi"
             is_read := 1, created_at := 0 } := by
  have h := (claim_C8 1 2 msgDB).2.2 0
    { id := 1, sender_id := 2, receiver_id := 1, message := "hi"
      is_read := 0, created_at := 0 } (by decide)
  simpa using h

/-- Claim C9: a conversation is symmetric in its two participants — both
argument orders produce the same list of messages in the same (creation-time
ascending) order; the operation only reads the state. -/
theorem claim_C9 (a b : Nat) (db : DB) :
    get_conversation a b db = get_conversation b a db := by
  unfold get_conversation
  congr 1
  congr 1
  funext m
  rw [Bool.or_comm]

/-- The trainer-profile invariant only reads the `users` and `trainers`
tables. -/
theorem trainer_inv_congr {db db' : DB} (hu : db'.users = db.users)
    (ht : db'.trainers = db.trainers) (h : trainer_inv db) : trainer_inv db' := by
  unfold trainer_inv at h ⊢
  rw [hu, ht]
  exact h

/-- Signup preserves the trainer-profile invariant: a trainer-typed user row
is inserted together with its `trainers` row. -/
theorem trainer_inv_create_user (H : String → String) (n e m pw acct s tk : String)
    (now : Nat) (db : DB) (h : trainer_inv db) :
    trainer_inv (create_user H n e m pw acct s tk now db).2 := by
  by_cases hdup : db.users.any (fun u => u.email == e) = true
  · rw [create_user_dup H n e m pw acct s tk now db hdup]
    exact h
  · rw [Bool.not_eq_true] at hdup
    by_cases hacct : (acct == "trainer") = true
    · simp only [create_user, hdup, Bool.false_eq_true, if_false, hacct, if_true]
      intro u hu hut
      rcases List.mem_append.mp hu with hu | hu
      · obtain ⟨t, ht, hid⟩ := h u hu hut
        exact ⟨t, List.mem_append_left _ ht, hid⟩
      · rw [List.mem_singleton] at hu
        subst hu
        exact ⟨_, List.mem_append_right _ (List.mem_singleton_self _), rfl⟩
    · simp only [create_user, hdup, Bool.false_eq_true, if_false, hacct]
      intro u hu hut
      rcases List.mem_append.mp hu with hu | hu
      · obtain ⟨t, ht, hid⟩ := h u hu hut
        exact ⟨t, ht, hid⟩
      · rw [List.mem_singleton] at hu
        subst hu
        exact absurd (beq_iff_eq.mpr hut) hacct

/-- Login preserves the trainer-profile invariant: the token update keeps
every row's id and account type and does not touch the `trainers` table. -/
theorem trainer_inv_verify_user (H : String → String) (e pw tk : String) (now : Nat)
    (db : DB) (h : trainer_inv db) : trainer_inv (verify_user H e pw tk now db).2 := by
  unfold verify_user
  cases hf : db.users.find? (fun u => u.email == e) with
  | none => exact h
  | some u =>
    by_cases hpw : (hash_password H pw u.salt == u.password_hash) = true
    · dsimp only
      rw [if_pos hpw]
      intro w hw hwt
      obtain ⟨v, hv, rfl⟩ := List.mem_map.mp hw
      by_cases hid : (v.id == u.id) = true
      · rw [if_pos hid] at hwt ⊢
        exact h v hv hwt
      · rw [if_neg hid] at hwt ⊢
        exact h v hv hwt
    · dsimp only
      rw [if_neg hpw]
      exact h

/-- Profile updates preserve the trainer-profile invariant: each `trainers`
row keeps its `user_id`. -/
theorem trainer_inv_update_profile (uid : Nat) (sp : String) (ex : Nat) (bio : String)
    (db : DB) (h : trainer_inv db) :
    trainer_inv (update_trainer_profile uid sp ex bio db) := by
  intro u hu hut
  obtain ⟨t, ht, hid⟩ := h u hu hut
  refine ⟨_, List.mem_map_of_mem _ ht, ?_⟩
  by_cases hc : (t.user_id == uid) = true
  · rw [if_pos hc]
    exact hid
  · rw [if_neg hc]
    exact hid

/-- Subscribing touches neither `users` nor `trainers`. -/
theorem trainer_inv_subscribe (u p : Nat) (a : Int) (t0 : Nat) (db : DB)
    (h : trainer_inv db) : trainer_inv (subscribe_to_plan u p a t0 db).2 := by
  refine trainer_inv_congr ?_ ?_ h
  · unfold subscribe_to_plan
    split
    · rfl
    · split <;> rfl
  · unfold subscribe_to_plan
    split
    · rfl
    · split <;> rfl

/-- Following touches neither `users` nor `trainers`. -/
theorem trainer_inv_follow (u t : Nat) (db : DB) (h : trainer_inv db) :
    trainer_inv (follow_trainer u t db).2 := by
  refine trainer_inv_congr ?_ ?_ h
  · unfold follow_trainer
    split <;> rfl
  · unfold follow_trainer
    split <;> rfl

/-- Claim C6: in every database state reachable through the modelled
operations, every user row with `account_type = "trainer"` has a
`trainers` row pointing at it — a trainer user is never created without its
profile row. -/
theorem claim_C6 (db : DB) (h : Reachable db) : trainer_inv db := by
  induction h with
  | init =>
    intro u hu _
    cases hu
  | create_user H n e m pw acct s tk now _ ih =>
    exact trainer_inv_create_user H n e m pw acct s tk now _ ih
  | verify_user H e pw tk now _ ih =>
    exact trainer_inv_verify_user H e pw tk now _ ih
  | subscribe u p a t _ ih =>
    exact trainer_inv_subscribe u p a t _ ih
  | follow u t _ ih =>
    exact trainer_inv_follow u t _ ih
  | unfollow u t _ ih =>
    exact trainer_inv_congr rfl rfl ih
  | send s r msg now _ ih =>
    exact trainer_inv_congr rfl rfl ih
  | mark u s _ ih =>
    exact trainer_inv_congr rfl rfl ih
  | create_plan tr ti de pr du di ca now _ ih =>
    exact trainer_inv_congr rfl rfl ih
  | delete_plan p tr _ ih =>
    exact trainer_inv_congr rfl rfl ih
  | update_profile u sp ex bio _ ih =>
    exact trainer_inv_update_profile u sp ex bio _ ih

/-- Claim C6, witness: `db2` is reachable (two signups from the fresh
database) and Bob's trainer-typed user row (id 2) has its `trainers` row. -/
theorem claim_C6_witness : ∃ t ∈ db2.trainers, t.user_id = 2 := by
  have hreach : Reachable db2 :=
    Reachable.create_user idH "Bob" "b@x.com" "1" "pw" "trainer" "s2" "t2" 0
      (Reachable.create_user idH "Alice" "a@x.com" "1" "pw" "user" "s1" "t1" 0
        Reachable.init)
  exact claim_C6 db2 hreach bobRow (by decide) rfl

end FitHub
